import Mathlib

/-!
Shallow embedding of the `thaitravelshare` backend core in Lean 4,
with theorems settling the specification claims about it.

Conventions of the embedding:
* `datetime` values are unix timestamps modelled as `Int` (seconds).
* `Decimal` and `float` amounts are modelled as `Rat` (exact rationals).
* The relational store is modelled as explicit Lean lists of rows;
  `session.get(Model, pk)` becomes `List.find?` on the primary key and a
  committed write returns the new list of rows.
* `HTTPException` becomes the `HTTPError` structure carried in `Except`.
* Externally provided primitives (bcrypt hashing/verification, fresh
  UUIDs, the current time) are passed in as explicit parameters.
* A JWT is modelled as its decoded content: the claims (`sub`, `type`,
  `exp`), the key and algorithm it was signed with, and a well-formedness
  flag; `jose.jwt.decode` succeeds exactly when the envelope parses, the
  signature (key and algorithm) matches and the token is not expired.
-/

namespace ThaiTravelShare

/-! ## core/security.py -/

def ALGORITHM : String := "HS256"

def SECRET_KEY : String := "dev-secret-key-replace-in-production"

def ACCESS_TOKEN_EXPIRE_MINUTES : Int := 300

def REFRESH_TOKEN_EXPIRE_MINUTES : Int := 10080

/-- The claims carried by a token: `sub`, `type` and `exp` (unix seconds). -/
structure JwtPayload where
  sub : Option String
  type : Option String
  exp : Int
deriving DecidableEq

/-- A signed token, modelled by its decoded content. `wellFormed = false`
stands for an envelope that does not parse at all. -/
structure Jwt where
  payload : JwtPayload
  key : String
  alg : String
  wellFormed : Bool
deriving DecidableEq

/-- `jose.jwt.encode(payload, key, algorithm)`. -/
def jwtEncode (payload : JwtPayload) (key : String) (alg : String) : Jwt :=
  { payload := payload, key := key, alg := alg, wellFormed := true }

/-- `jose.jwt.decode(token, key, algorithms=[alg])` at time `now`:
`none` models a raised `JWTError` (malformed envelope, signature
mismatch, or expiry in the past; jose rejects when `exp < now`). -/
def jwtDecode (token : Jwt) (key : String) (alg : String) (now : Int) :
    Option JwtPayload :=
  if token.wellFormed = true ∧ token.key = key ∧ token.alg = alg ∧
      ¬ token.payload.exp < now then
    some token.payload
  else
    none

/-- `create_access_token(data, expires_delta)`; `data` is `{"sub": u}` so it
is modelled by the optional `sub` claim, and `expires_delta` is in seconds. -/
def create_access_token (sub : Option String) (now : Int)
    (expires_delta : Option Int) : Jwt :=
  let expire : Int :=
    match expires_delta with
    | some d => now + d
    | none => now + ACCESS_TOKEN_EXPIRE_MINUTES * 60
  jwtEncode { sub := sub, type := some "access", exp := expire }
    SECRET_KEY ALGORITHM

/-- `create_refresh_token(data, expires_delta)`. -/
def create_refresh_token (sub : Option String) (now : Int)
    (expires_delta : Option Int) : Jwt :=
  let expire : Int :=
    match expires_delta with
    | some d => now + d
    | none => now + REFRESH_TOKEN_EXPIRE_MINUTES * 60
  jwtEncode { sub := sub, type := some "refresh", exp := expire }
    SECRET_KEY ALGORITHM

/-- `verify_token(token, token_type)` evaluated at time `now`. -/
def verify_token (token : Jwt) (token_type : String) (now : Int) :
    Option String :=
  match jwtDecode token SECRET_KEY ALGORITHM now with
  | some payload =>
    let username : Option String := payload.sub
    let token_type_claim : Option String := payload.type
    if username = none ∨ token_type_claim ≠ some token_type then none
    else username
  | none => none

/-- A well-formed, unexpired token signed with the wrong key. -/
def forgedToken : Jwt :=
  { payload := { sub := some "alice", type := some "access", exp := 100 },
    key := "forged-key", alg := "HS256", wellFormed := true }

/-! ## models/user_model.py -/

/-- Row of the `users` table (`DBUser`). -/
structure DBUser where
  id : String
  email : String
  username : String
  hashed_password : String
  first_name : String
  last_name : String
  phone : Option String := none
  date_of_birth : Option Int := none
  national_id : Option String := none
  is_active : Bool := true
  created_at : Int
  updated_at : Option Int := none
deriving DecidableEq

/-- Public `User` model for API responses (never carries the hash). -/
structure User where
  id : String
  email : String
  username : String
  first_name : String
  last_name : String
  phone : Option String := none
  date_of_birth : Option Int := none
  is_active : Bool
  created_at : Int
deriving DecidableEq

/-- The `models.User(...)` projection built by the routers. -/
def toPublicUser (u : DBUser) : User :=
  { id := u.id, email := u.email, username := u.username,
    first_name := u.first_name, last_name := u.last_name, phone := u.phone,
    date_of_birth := u.date_of_birth, is_active := u.is_active,
    created_at := u.created_at }

/-- `RegisteredUser` registration input model. -/
structure RegisteredUser where
  email : String
  username : String
  password : String
  first_name : String
  last_name : String
  phone : Option String := none
  date_of_birth : Option Int := none
  national_id : Option String := none
deriving DecidableEq

/-- `UserLogin` input model. -/
structure UserLogin where
  username : String
  password : String
deriving DecidableEq

/-! ## models/travel_model.py -/

/-- Row of the `provinces` table (`DBProvince`). -/
structure DBProvince where
  id : Int
  name_th : String
  name_en : String
  region : String
  is_secondary_province : Bool := false
  tax_reduction_percentage : Rat := 0
  description : Option String := none
deriving DecidableEq

/-- Public `Province` model for API responses. -/
structure Province where
  id : Int
  name_th : String
  name_en : String
  region : String
  is_secondary_province : Bool
  tax_reduction_percentage : Rat
  description : Option String := none
deriving DecidableEq

/-- The `models.Province(...)` projection built by the routers. -/
def toProvinceModel (p : DBProvince) : Province :=
  { id := p.id, name_th := p.name_th, name_en := p.name_en,
    region := p.region, is_secondary_province := p.is_secondary_province,
    tax_reduction_percentage := p.tax_reduction_percentage,
    description := p.description }

/-- Row of the `travel_plans` table (`DBTravelPlan`). -/
structure DBTravelPlan where
  id : String
  user_id : String
  province_id : Int
  start_date : Int
  end_date : Int
  budget : Option Rat := none
  estimated_tax_reduction : Option Rat := none
  status : String := "planned"
  notes : Option String := none
  created_at : Int
  updated_at : Option Int := none
deriving DecidableEq

/-- Public `TravelPlan` model for API responses. -/
structure TravelPlan where
  id : String
  user_id : String
  province_id : Int
  province : Province
  start_date : Int
  end_date : Int
  budget : Option Rat := none
  estimated_tax_reduction : Option Rat := none
  status : String
  notes : Option String := none
  created_at : Int
deriving DecidableEq

/-- The `models.TravelPlan(...)` projection built by the routers. -/
def toTravelPlanModel (t : DBTravelPlan) (province : Province) : TravelPlan :=
  { id := t.id, user_id := t.user_id, province_id := t.province_id,
    province := province, start_date := t.start_date, end_date := t.end_date,
    budget := t.budget, estimated_tax_reduction := t.estimated_tax_reduction,
    status := t.status, notes := t.notes, created_at := t.created_at }

/-- `CreateTravelPlan` input model. -/
structure CreateTravelPlan where
  province_id : Int
  start_date : Int
  end_date : Int
  budget : Option Rat := none
  notes : Option String := none
deriving DecidableEq

/-- `UpdateTravelPlan` input model with Pydantic `exclude_unset` semantics:
a field set to `none` was not supplied by the caller. For the nullable
columns `budget` and `notes` the inner `Option` is the supplied value
(which may itself be null). -/
structure UpdateTravelPlan where
  start_date : Option Int := none
  end_date : Option Int := none
  budget : Option (Option Rat) := none
  status : Option String := none
  notes : Option (Option String) := none
deriving DecidableEq

/-! ## Store lookups (SQLModel session operations on list-modelled tables) -/

/-- `session.get(models.DBProvince, pid)`. -/
def sessionGetProvince (provinces : List DBProvince) (pid : Int) :
    Option DBProvince :=
  provinces.find? (fun p => p.id == pid)

/-- `session.get(models.DBTravelPlan, plan_id)`. -/
def sessionGetTravelPlan (plans : List DBTravelPlan) (plan_id : String) :
    Option DBTravelPlan :=
  plans.find? (fun p => p.id == plan_id)

/-- `session.exec(select(DBUser).where(DBUser.username == u)).first()`. -/
def findUserByUsername (users : List DBUser) (username : String) :
    Option DBUser :=
  users.find? (fun u => u.username == username)

/-- `session.exec(select(DBUser).where(DBUser.email == e)).first()`. -/
def findUserByEmail (users : List DBUser) (email : String) : Option DBUser :=
  users.find? (fun u => u.email == email)

/-- `HTTPException(status_code, detail)`. -/
structure HTTPError where
  status_code : Nat
  detail : String
deriving DecidableEq

/-! ## routers/v1/user_router.py -/

/-- `LoginResponse` schema (token fields; the `user` field is the public
projection of the authenticated user). -/
structure LoginResponse where
  access_token : Jwt
  refresh_token : Jwt
  token_type : String
  expires_in : Int
  user : User
deriving DecidableEq

/-- `POST /users/register`. `get_password_hash` (bcrypt) and the fresh row
id and clock are passed in; returns the response outcome and the new
`users` table. -/
def register (db : List DBUser) (get_password_hash : String → String)
    (user_info : RegisteredUser) (newId : String) (now : Int) :
    Except HTTPError User × List DBUser :=
  match findUserByEmail db user_info.email with
  | some _ => (.error ⟨400, "Email already registered"⟩, db)
  | none =>
    match findUserByUsername db user_info.username with
    | some _ => (.error ⟨400, "Username already taken"⟩, db)
    | none =>
      let db_user : DBUser :=
        { id := newId, email := user_info.email,
          username := user_info.username,
          hashed_password := get_password_hash user_info.password,
          first_name := user_info.first_name,
          last_name := user_info.last_name, phone := user_info.phone,
          date_of_birth := user_info.date_of_birth,
          national_id := user_info.national_id, is_active := true,
          created_at := now, updated_at := none }
      (.ok (toPublicUser db_user), db ++ [db_user])

/-- `POST /users/login`. `verify_password` (bcrypt check of plaintext
against stored hash) is passed in; `now` is the clock used when issuing
the two tokens. -/
def login (db : List DBUser) (verify_password : String → String → Bool)
    (user_login : UserLogin) (now : Int) : Except HTTPError LoginResponse :=
  match findUserByUsername db user_login.username with
  | none => .error ⟨401, "Incorrect username or password"⟩
  | some user =>
    if verify_password user_login.password user.hashed_password = false then
      .error ⟨401, "Incorrect username or password"⟩
    else if user.is_active = false then
      .error ⟨400, "Inactive user"⟩
    else
      .ok { access_token := create_access_token (some user.username) now
              (some (ACCESS_TOKEN_EXPIRE_MINUTES * 60)),
            refresh_token := create_refresh_token (some user.username) now
              (some (REFRESH_TOKEN_EXPIRE_MINUTES * 60)),
            token_type := "bearer",
            expires_in := ACCESS_TOKEN_EXPIRE_MINUTES * 60,
            user := toPublicUser user }

/-! ## routers/v1/travel_router.py -/

/-- Python truthiness of an `Optional[Decimal]`: `None` and zero are
falsy, every other value is truthy (`if travel_plan.budget:`). -/
def decimalTruthy : Option Rat → Bool
  | none => false
  | some b => decide (b ≠ 0)

/-- The `tax_benefits` dict of the creation response. -/
structure TaxBenefitsSummary where
  estimated_reduction : Rat
  tax_rate : Rat
  is_secondary_province : Bool
deriving DecidableEq

/-- `TravelPlanCreationResponse` schema. -/
structure TravelPlanCreationResponse where
  travel_plan : TravelPlan
  message : String
  tax_benefits : TaxBenefitsSummary
  suggestions : List String
deriving DecidableEq

/-- `POST /travel-plans/`. `current_user_id` is the id of the principal
resolved by the authentication dependency; `newId` and `now` are the fresh
row id and clock. Returns the response outcome and the new
`travel_plans` table. -/
def create_travel_plan (provinces : List DBProvince)
    (plans : List DBTravelPlan) (travel_plan : CreateTravelPlan)
    (current_user_id : String) (newId : String) (now : Int) :
    Except HTTPError TravelPlanCreationResponse × List DBTravelPlan :=
  match sessionGetProvince provinces travel_plan.province_id with
  | none => (.error ⟨404, "Province not found"⟩, plans)
  | some province =>
    let estimated_tax_reduction : Option Rat :=
      match travel_plan.budget with
      | some b =>
        if b ≠ 0 then
          let tax_rate := province.tax_reduction_percentage / 100
          some (b * tax_rate)
        else none
      | none => none
    let db_travel_plan : DBTravelPlan :=
      { id := newId, user_id := current_user_id,
        province_id := travel_plan.province_id,
        start_date := travel_plan.start_date,
        end_date := travel_plan.end_date, budget := travel_plan.budget,
        estimated_tax_reduction := estimated_tax_reduction,
        status := "planned", notes := travel_plan.notes, created_at := now,
        updated_at := none }
    (.ok { travel_plan :=
             toTravelPlanModel db_travel_plan (toProvinceModel province),
           message := "Travel plan created successfully",
           tax_benefits :=
             { estimated_reduction :=
                 db_travel_plan.estimated_tax_reduction.getD 0,
               tax_rate := province.tax_reduction_percentage,
               is_secondary_province := province.is_secondary_province },
           suggestions :=
             ["Visit " ++ province.name_th ++
                " during off-peak season for better deals",
              "Consider extending your stay to maximize tax benefits",
              "Keep all receipts for tax deduction claims"] },
     plans ++ [db_travel_plan])

/-- `GET /travel-plans/{plan_id}`: the select joins the plan with its
province and filters on both the plan id and the caller's user id; an
empty result is a 404. -/
def get_travel_plan (plans : List DBTravelPlan)
    (provinces : List DBProvince) (plan_id : String)
    (current_user_id : String) : Except HTTPError TravelPlan :=
  match plans.find?
      (fun p => p.id == plan_id && p.user_id == current_user_id) with
  | none => .error ⟨404, "Travel plan not found"⟩
  | some travel_plan =>
    match sessionGetProvince provinces travel_plan.province_id with
    | none => .error ⟨404, "Travel plan not found"⟩
    | some province =>
      .ok (toTravelPlanModel travel_plan (toProvinceModel province))

/-- The `setattr` loop over `model_dump(exclude_unset=True)`: each
supplied field overwrites the row's value, absent fields are untouched. -/
def applyUpdate (plan : DBTravelPlan) (upd : UpdateTravelPlan) :
    DBTravelPlan :=
  { plan with
    start_date := upd.start_date.getD plan.start_date,
    end_date := upd.end_date.getD plan.end_date,
    budget := upd.budget.getD plan.budget,
    status := upd.status.getD plan.status,
    notes := upd.notes.getD plan.notes }

/-- `PUT /travel-plans/{plan_id}`. Returns the response outcome and the
new `travel_plans` table. The final province lookup feeding the response
body happens after the commit, so a missing province (impossible under
the foreign-key invariant) would surface as an unhandled error with the
write already persisted. -/
def update_travel_plan (plans : List DBTravelPlan)
    (provinces : List DBProvince) (plan_id : String)
    (travel_plan_update : UpdateTravelPlan) (current_user_id : String)
    (now : Int) : Except HTTPError TravelPlan × List DBTravelPlan :=
  match sessionGetTravelPlan plans plan_id with
  | none => (.error ⟨404, "Travel plan not found"⟩, plans)
  | some travel_plan =>
    if travel_plan.user_id ≠ current_user_id then
      (.error ⟨404, "Travel plan not found"⟩, plans)
    else
      let updated := applyUpdate travel_plan travel_plan_update
      let updated :=
        if travel_plan_update.budget.isSome ∧
            decimalTruthy updated.budget = true then
          match sessionGetProvince provinces updated.province_id with
          | some province =>
            { updated with
              estimated_tax_reduction :=
                some (updated.budget.getD 0 *
                  (province.tax_reduction_percentage / 100)) }
          | none => updated
        else updated
      let updated := { updated with updated_at := some now }
      let new_plans :=
        plans.map (fun p => if p.id == plan_id then updated else p)
      match sessionGetProvince provinces updated.province_id with
      | none => (.error ⟨500, "Internal Server Error"⟩, new_plans)
      | some province =>
        (.ok (toTravelPlanModel updated (toProvinceModel province)),
         new_plans)

/-- `DELETE /travel-plans/{plan_id}`. Returns the response outcome and
the new `travel_plans` table. -/
def delete_travel_plan (plans : List DBTravelPlan) (plan_id : String)
    (current_user_id : String) : Except HTTPError String × List DBTravelPlan :=
  match sessionGetTravelPlan plans plan_id with
  | none => (.error ⟨404, "Travel plan not found"⟩, plans)
  | some travel_plan =>
    if travel_plan.user_id ≠ current_user_id then
      (.error ⟨404, "Travel plan not found"⟩, plans)
    else
      (.ok "Travel plan deleted successfully",
       plans.eraseP (fun p => p.id == plan_id))

/-! ## routers/v1/province_router.py -/

/-- The estimate-bearing part of the `GET /provinces/{id}/tax-benefits`
response (the per-province comparison list is not referenced by any
claim and is omitted from the embedding). -/
structure TaxBenefitsResult where
  province : Province
  budget : Rat
  estimated_tax_reduction : Rat
  tax_reduction_rate : Rat
deriving DecidableEq

/-- `GET /provinces/{province_id}/tax-benefits` with required query
parameter `budget`. -/
def get_province_tax_benefits (provinces : List DBProvince)
    (province_id : Int) (budget : Rat) : Except HTTPError TaxBenefitsResult :=
  match sessionGetProvince provinces province_id with
  | none => .error ⟨404, "Province not found"⟩
  | some province =>
    let tax_reduction_rate := province.tax_reduction_percentage / 100
    let estimated_tax_reduction := budget * tax_reduction_rate
    .ok { province := toProvinceModel province, budget := budget,
          estimated_tax_reduction := estimated_tax_reduction,
          tax_reduction_rate := tax_reduction_rate }

/-- The row stored by a successful `update_travel_plan` call, factored out
of the handler for reasoning: apply the supplied fields, recompute the
estimated reduction when the budget was supplied and is truthy, stamp
`updated_at`. -/
def updatedPlan (provinces : List DBProvince) (plan : DBTravelPlan)
    (upd : UpdateTravelPlan) (now : Int) : DBTravelPlan :=
  let updated := applyUpdate plan upd
  let updated :=
    if upd.budget.isSome ∧ decimalTruthy updated.budget = true then
      match sessionGetProvince provinces updated.province_id with
      | some province =>
        { updated with
          estimated_tax_reduction :=
            some (updated.budget.getD 0 *
              (province.tax_reduction_percentage / 100)) }
      | none => updated
    else updated
  { updated with updated_at := some now }

/-! ## Concrete fixtures used by witnesses and counterexamples -/

/-- The status vocabulary named by the data-model comment
(`planned, ongoing, completed, cancelled`) plus the `confirmed` value
observed in use. -/
def allowedStatuses : List String :=
  ["planned", "ongoing", "completed", "cancelled", "confirmed"]

/-- A 15%-rate province. -/
def chiangMai : DBProvince :=
  { id := 1, name_th := "เชียงใหม่", name_en := "Chiang Mai",
    region := "North", is_secondary_province := true,
    tax_reduction_percentage := 15, description := none }

/-- A stored plan owned by `"alice"` with budget 10000 and the matching
estimated reduction 1500 at the 15% rate. -/
def alicePlan : DBTravelPlan :=
  { id := "p1", user_id := "alice", province_id := 1, start_date := 100,
    end_date := 200, budget := some 10000,
    estimated_tax_reduction := some 1500, status := "planned",
    notes := none, created_at := 50, updated_at := none }

/-- A stored plan owned by `"bob"`. -/
def bobPlan : DBTravelPlan :=
  { id := "p2", user_id := "bob", province_id := 1, start_date := 100,
    end_date := 200, budget := some 5000,
    estimated_tax_reduction := some 750, status := "planned",
    notes := some "bob trip", created_at := 50, updated_at := none }

/-- A registered user row for `"alice"`. -/
def aliceUser : DBUser :=
  { id := "u1", email := "alice@example.com", username := "alice",
    hashed_password := "bcrypt$alice", first_name := "Alice",
    last_name := "A", phone := none, date_of_birth := none,
    national_id := none, is_active := true, created_at := 10,
    updated_at := none }

/-- A registration request reusing alice's email (and even her username). -/
def dupEmailInfo : RegisteredUser :=
  { email := "alice@example.com", username := "alice2", password := "pw",
    first_name := "Al", last_name := "Ice", phone := none,
    date_of_birth := none, national_id := none }

/-- A plan-creation request against the 15% province with no budget. -/
def noBudgetRequest : CreateTravelPlan :=
  { province_id := 1, start_date := 100, end_date := 200, budget := none,
    notes := none }

/-- Alice's plan after an update that sets the budget to 0 at time 300:
the budget changes and `updated_at` is stamped, but the estimated
reduction keeps its stale value 1500. -/
def alicePlanZeroBudget : DBTravelPlan :=
  { id := "p1", user_id := "alice", province_id := 1, start_date := 100,
    end_date := 200, budget := some 0,
    estimated_tax_reduction := some 1500, status := "planned",
    notes := none, created_at := 50, updated_at := some 300 }

/-- A plan-creation request against the 15% province with budget zero. -/
def zeroBudgetRequest : CreateTravelPlan :=
  { province_id := 1, start_date := 100, end_date := 200, budget := some 0,
    notes := none }

end ThaiTravelShare

namespace ThaiTravelShare

/-- C1: a token issued as kind "access" verifies as "access" (returning its
subject) while a token of one kind never verifies as the other kind, even
when well-formed and unexpired. -/
theorem token_kind_isolation (u : String) (ttl now now' : Int)
    (h : now' ≤ now + ttl) :
    verify_token (create_access_token (some u) now (some ttl)) "access" now'
        = some u ∧
    verify_token (create_access_token (some u) now (some ttl)) "refresh" now'
        = none ∧
    verify_token (create_refresh_token (some u) now (some ttl)) "access" now'
        = none := by
  have hexp : ¬ now + ttl < now' := by omega
  simp [verify_token, create_access_token, create_refresh_token, jwtDecode,
    jwtEncode, hexp]

theorem token_kind_isolation_witness :
    verify_token (create_access_token (some "alice") 0 (some 60)) "access" 30
        = some "alice" ∧
    verify_token (create_access_token (some "alice") 0 (some 60)) "refresh" 30
        = none ∧
    verify_token (create_refresh_token (some "alice") 0 (some 60)) "access" 30
        = none :=
  token_kind_isolation "alice" 60 0 30 (by decide)

/-- C4: every signature failure (wrong key or algorithm), malformed
envelope, or expiry in the past yields the single invalid outcome `none`
from `verify_token`; in particular a token issued with a negative ttl
always verifies as invalid afterwards. -/
theorem verify_token_uniform_invalid (t : Jwt) (kind u : String)
    (ttl now now' m : Int)
    (hbad : t.wellFormed = false ∨ t.key ≠ SECRET_KEY ∨ t.alg ≠ ALGORITHM ∨
      t.payload.exp < m)
    (hneg : ttl < 0) (hle : now ≤ now') :
    verify_token t kind m = none ∧
    verify_token (create_access_token (some u) now (some ttl)) "access" now'
        = none := by
  constructor
  · have hdec : jwtDecode t SECRET_KEY ALGORITHM m = none := by
      unfold jwtDecode
      rcases hbad with hb | hb | hb | hb <;> simp_all
    simp [verify_token, hdec]
  · have hexp : now + ttl < now' := by omega
    simp [verify_token, create_access_token, jwtDecode, jwtEncode, hexp]

theorem verify_token_uniform_invalid_witness :
    verify_token forgedToken "access" 50 = none ∧
    verify_token (create_access_token (some "alice") 10 (some (-1)))
        "access" 10 = none :=
  verify_token_uniform_invalid forgedToken "access" "alice" (-1) 10 10 50
    (Or.inr (Or.inl (by decide))) (by decide) (by decide)

/-- C3: whether the username matches no stored principal or the password
check against the stored hash fails, login returns the one same 401
outcome with the identical message. -/
theorem login_enumeration_resistance (db : List DBUser)
    (vp : String → String → Bool) (ul : UserLogin) (now : Int)
    (h : findUserByUsername db ul.username = none ∨
      ∃ user, findUserByUsername db ul.username = some user ∧
        vp ul.password user.hashed_password = false) :
    login db vp ul now = .error ⟨401, "Incorrect username or password"⟩ := by
  unfold login
  rcases h with h | ⟨user, hfind, hvp⟩
  · rw [h]
  · rw [hfind]
    simp [hvp]

theorem login_enumeration_resistance_witness :
    login [aliceUser] (fun _ _ => false) ⟨"alice", "wrong-pw"⟩ 0 =
      .error ⟨401, "Incorrect username or password"⟩ :=
  login_enumeration_resistance [aliceUser] (fun _ _ => false)
    ⟨"alice", "wrong-pw"⟩ 0 (Or.inr ⟨aliceUser, by decide, rfl⟩)

/-- C8: registering an email that is already stored fails with the
400 "Email already registered" outcome — before the username check is
even consulted, hence regardless of the requested username — and the
users table is unchanged. -/
theorem register_duplicate_email (db : List DBUser)
    (hash : String → String) (info : RegisteredUser) (newId : String)
    (now : Int) (u : DBUser)
    (h : findUserByEmail db info.email = some u) :
    register db hash info newId now =
      (.error ⟨400, "Email already registered"⟩, db) := by
  unfold register
  rw [h]

theorem register_duplicate_email_witness :
    register [aliceUser] (fun p => p) dupEmailInfo "u9" 99 =
      (.error ⟨400, "Email already registered"⟩, [aliceUser]) :=
  register_duplicate_email [aliceUser] (fun p => p) dupEmailInfo "u9" 99
    aliceUser (by decide)

/-- C2: when every stored plan with the requested id belongs to someone
other than the caller (which covers both a plan owned by another
principal and a wholly absent id), read, update and delete all fail with
the same 404 "Travel plan not found" outcome and leave the stored plans
unchanged. -/
theorem ownership_isolation (plans : List DBTravelPlan)
    (provinces : List DBProvince) (plan_id uid : String) (now : Int)
    (upd : UpdateTravelPlan)
    (h : ∀ p ∈ plans, p.id = plan_id → p.user_id ≠ uid) :
    get_travel_plan plans provinces plan_id uid =
      .error ⟨404, "Travel plan not found"⟩ ∧
    update_travel_plan plans provinces plan_id upd uid now =
      (.error ⟨404, "Travel plan not found"⟩, plans) ∧
    delete_travel_plan plans plan_id uid =
      (.error ⟨404, "Travel plan not found"⟩, plans) := by
  have hjoin :
      plans.find? (fun p => p.id == plan_id && p.user_id == uid) = none := by
    rw [List.find?_eq_none]
    intro p hp
    simp only [Bool.and_eq_true, beq_iff_eq, not_and]
    exact h p hp
  have hbyid : ∀ p, sessionGetTravelPlan plans plan_id = some p →
      p.user_id ≠ uid := by
    intro p hfind
    have hmem := List.mem_of_find?_eq_some hfind
    have hid : p.id = plan_id := by
      have := List.find?_some hfind
      simpa using this
    exact h p hmem hid
  refine ⟨?_, ?_, ?_⟩
  · unfold get_travel_plan
    rw [hjoin]
  · unfold update_travel_plan
    cases hfind : sessionGetTravelPlan plans plan_id with
    | none => rfl
    | some p => simp [hbyid p hfind]
  · unfold delete_travel_plan
    cases hfind : sessionGetTravelPlan plans plan_id with
    | none => rfl
    | some p => simp [hbyid p hfind]

theorem ownership_isolation_witness :
    get_travel_plan [bobPlan] [chiangMai] "p2" "alice" =
      .error ⟨404, "Travel plan not found"⟩ ∧
    update_travel_plan [bobPlan] [chiangMai] "p2"
        { status := some "cancelled" } "alice" 300 =
      (.error ⟨404, "Travel plan not found"⟩, [bobPlan]) ∧
    delete_travel_plan [bobPlan] "p2" "alice" =
      (.error ⟨404, "Travel plan not found"⟩, [bobPlan]) :=
  ownership_isolation [bobPlan] [chiangMai] "p2" "alice" 300
    { status := some "cancelled" } (by decide)

/-- A successful owner update commits exactly the row `updatedPlan`
describes, in place of the row with the requested id. -/
theorem update_travel_plan_snd (plans : List DBTravelPlan)
    (provinces : List DBProvince) (plan_id uid : String)
    (upd : UpdateTravelPlan) (now : Int) (p : DBTravelPlan)
    (hfind : sessionGetTravelPlan plans plan_id = some p)
    (hown : p.user_id = uid) :
    (update_travel_plan plans provinces plan_id upd uid now).2 =
      plans.map (fun r => if r.id == plan_id then
        updatedPlan provinces p upd now else r) := by
  unfold update_travel_plan updatedPlan
  rw [hfind]
  simp only [hown, ne_eq, not_true_eq_false, if_false, ite_false]
  split <;> rfl

/-- Field accounting for `updatedPlan`: supplied fields overwrite, the
key fields are untouched, and with no budget supplied the estimated
reduction is untouched as well. -/
theorem updatedPlan_frame (provinces : List DBProvince) (p : DBTravelPlan)
    (upd : UpdateTravelPlan) (now : Int) :
    (updatedPlan provinces p upd now).id = p.id ∧
    (updatedPlan provinces p upd now).user_id = p.user_id ∧
    (updatedPlan provinces p upd now).province_id = p.province_id ∧
    (updatedPlan provinces p upd now).created_at = p.created_at ∧
    (updatedPlan provinces p upd now).start_date =
      upd.start_date.getD p.start_date ∧
    (updatedPlan provinces p upd now).end_date =
      upd.end_date.getD p.end_date ∧
    (updatedPlan provinces p upd now).budget = upd.budget.getD p.budget ∧
    (updatedPlan provinces p upd now).status = upd.status.getD p.status ∧
    (updatedPlan provinces p upd now).notes = upd.notes.getD p.notes ∧
    (upd.budget = none →
      (updatedPlan provinces p upd now).estimated_tax_reduction =
        p.estimated_tax_reduction) := by
  unfold updatedPlan applyUpdate
  dsimp only
  split
  · rename_i hg
    have hns : upd.budget ≠ none := by
      intro h0
      rw [h0] at hg
      simp at hg
    split <;> simp_all
  · simp_all

/-- When the supplied budget is a nonzero value and the plan's province
exists, `updatedPlan` stores the freshly recomputed estimate. -/
theorem updatedPlan_recompute (provinces : List DBProvince)
    (p : DBTravelPlan) (upd : UpdateTravelPlan) (now : Int) (b : Rat)
    (province : DBProvince) (hb : upd.budget = some (some b)) (hbne : b ≠ 0)
    (hprov : sessionGetProvince provinces p.province_id = some province) :
    (updatedPlan provinces p upd now).estimated_tax_reduction =
      some (b * (province.tax_reduction_percentage / 100)) := by
  unfold updatedPlan applyUpdate
  dsimp only
  rw [hb]
  simp [decimalTruthy, hbne, hprov]

/-- C6: an owner update applies exactly the supplied fields: id,
user_id, province_id and created_at are always kept, and each of
start_date, end_date, budget (together with the estimated reduction),
status and notes keeps its previous value whenever it was not supplied —
in particular an update supplying only `status` changes nothing else. -/
theorem update_partial_frame (plans : List DBTravelPlan)
    (provinces : List DBProvince) (plan_id uid : String) (now : Int)
    (p : DBTravelPlan) (upd : UpdateTravelPlan)
    (hfind : sessionGetTravelPlan plans plan_id = some p)
    (hown : p.user_id = uid) :
    ∃ q, (update_travel_plan plans provinces plan_id upd uid now).2 =
        plans.map (fun r => if r.id == plan_id then q else r) ∧
      q.id = p.id ∧ q.user_id = p.user_id ∧ q.province_id = p.province_id ∧
      q.created_at = p.created_at ∧
      (upd.start_date = none → q.start_date = p.start_date) ∧
      (upd.end_date = none → q.end_date = p.end_date) ∧
      (upd.budget = none → q.budget = p.budget ∧
        q.estimated_tax_reduction = p.estimated_tax_reduction) ∧
      (upd.status = none → q.status = p.status) ∧
      (upd.notes = none → q.notes = p.notes) := by
  obtain ⟨hid, huid, hpid, hca, hsd, hed, hbu, hst, hno, hest⟩ :=
    updatedPlan_frame provinces p upd now
  refine ⟨updatedPlan provinces p upd now,
    update_travel_plan_snd plans provinces plan_id uid upd now p hfind hown,
    hid, huid, hpid, hca, ?_, ?_, ?_, ?_, ?_⟩
  · intro h
    rw [hsd, h, Option.getD_none]
  · intro h
    rw [hed, h, Option.getD_none]
  · intro h
    exact ⟨by rw [hbu, h, Option.getD_none], hest h⟩
  · intro h
    rw [hst, h, Option.getD_none]
  · intro h
    rw [hno, h, Option.getD_none]

theorem update_partial_frame_witness :
    ∃ q, (update_travel_plan [alicePlan] [chiangMai] "p1"
          { status := some "completed" } "alice" 300).2 =
        [alicePlan].map (fun r => if r.id == "p1" then q else r) ∧
      q.id = alicePlan.id ∧ q.user_id = alicePlan.user_id ∧
      q.province_id = alicePlan.province_id ∧
      q.created_at = alicePlan.created_at ∧
      ((none : Option Int) = none → q.start_date = alicePlan.start_date) ∧
      ((none : Option Int) = none → q.end_date = alicePlan.end_date) ∧
      ((none : Option (Option Rat)) = none → q.budget = alicePlan.budget ∧
        q.estimated_tax_reduction = alicePlan.estimated_tax_reduction) ∧
      ((some "completed" : Option String) = none →
        q.status = alicePlan.status) ∧
      ((none : Option (Option String)) = none →
        q.notes = alicePlan.notes) :=
  update_partial_frame [alicePlan] [chiangMai] "p1" "alice" 300 alicePlan
    { status := some "completed" } (by decide) rfl

/-- C7 counterexample: updating the budget of alice's plan (budget
10000, estimated reduction 1500 in the 15% province) to 0 stores budget
0 but keeps the stale estimated reduction 1500, while the claimed
recomputation 0 * 15 / 100 is 0 ≠ 1500: the recompute guard tests the
new budget for truthiness, and 0 is falsy. -/
theorem update_budget_zero_stale_estimate :
    (update_travel_plan [alicePlan] [chiangMai] "p1"
        { budget := some (some 0) } "alice" 300).2 =
      [alicePlanZeroBudget] ∧
    alicePlanZeroBudget.budget = some 0 ∧
    alicePlanZeroBudget.estimated_tax_reduction = some 1500 ∧
    (0 : Rat) * chiangMai.tax_reduction_percentage / 100 ≠ 1500 := by
  refine ⟨by decide, rfl, rfl, by norm_num⟩

/-- C7 (amended): when the owner supplies a nonzero budget and the
plan's (unchanged) province exists, the stored plan's estimated
reduction is recomputed as the new budget times the province rate over
100. -/
theorem update_budget_recompute (plans : List DBTravelPlan)
    (provinces : List DBProvince) (plan_id uid : String) (now : Int)
    (p : DBTravelPlan) (upd : UpdateTravelPlan) (b : Rat)
    (province : DBProvince)
    (hfind : sessionGetTravelPlan plans plan_id = some p)
    (hown : p.user_id = uid)
    (hb : upd.budget = some (some b)) (hbne : b ≠ 0)
    (hprov : sessionGetProvince provinces p.province_id = some province) :
    ∃ q, (update_travel_plan plans provinces plan_id upd uid now).2 =
        plans.map (fun r => if r.id == plan_id then q else r) ∧
      q.budget = some b ∧ q.province_id = p.province_id ∧
      q.estimated_tax_reduction =
        some (b * province.tax_reduction_percentage / 100) := by
  obtain ⟨_, _, hpid, _, _, _, hbu, _, _, _⟩ :=
    updatedPlan_frame provinces p upd now
  refine ⟨updatedPlan provinces p upd now,
    update_travel_plan_snd plans provinces plan_id uid upd now p hfind hown,
    by rw [hbu, hb, Option.getD_some], hpid, ?_⟩
  rw [updatedPlan_recompute provinces p upd now b province hb hbne hprov,
    mul_div_assoc]

theorem update_budget_recompute_witness :
    ∃ q, (update_travel_plan [alicePlan] [chiangMai] "p1"
          { budget := some (some 20000) } "alice" 300).2 =
        [alicePlan].map (fun r => if r.id == "p1" then q else r) ∧
      q.budget = some 20000 ∧ q.province_id = alicePlan.province_id ∧
      q.estimated_tax_reduction =
        some (20000 * chiangMai.tax_reduction_percentage / 100) :=
  update_budget_recompute [alicePlan] [chiangMai] "p1" "alice" 300
    alicePlan { budget := some (some 20000) } 20000 chiangMai
    (by decide) rfl rfl (by decide) (by decide)

/-- C9 counterexample: an owner update supplying the status string
"launched" stores exactly that status, which is outside the documented
set — the update path performs no status validation. -/
theorem update_status_unvalidated :
    ((update_travel_plan [alicePlan] [chiangMai] "p1"
        { status := some "launched" } "alice" 300).2.map
      DBTravelPlan.status) = ["launched"] ∧
    allowedStatuses.contains "launched" = false := by
  decide

/-- C9 (amended): creation always stores status "planned", and an update
stores exactly whatever status string the caller supplies — the fixed
status set is not enforced on updates. -/
theorem status_lifecycle (provinces : List DBProvince)
    (plans : List DBTravelPlan) (req : CreateTravelPlan)
    (uid newId : String) (now : Int) (province : DBProvince)
    (plans2 : List DBTravelPlan) (plan_id : String) (p : DBTravelPlan)
    (upd : UpdateTravelPlan) (s : String) (now2 : Int)
    (hp : sessionGetProvince provinces req.province_id = some province)
    (hfind : sessionGetTravelPlan plans2 plan_id = some p)
    (hown : p.user_id = uid) (hs : upd.status = some s) :
    (∃ t, (create_travel_plan provinces plans req uid newId now).2 =
        plans ++ [t] ∧ t.status = "planned") ∧
    (∃ q, (update_travel_plan plans2 provinces plan_id upd uid now2).2 =
        plans2.map (fun r => if r.id == plan_id then q else r) ∧
      q.status = s) := by
  constructor
  · unfold create_travel_plan
    rw [hp]
    exact ⟨_, rfl, rfl⟩
  · obtain ⟨_, _, _, _, _, _, _, hst, _, _⟩ :=
      updatedPlan_frame provinces p upd now2
    exact ⟨updatedPlan provinces p upd now2,
      update_travel_plan_snd plans2 provinces plan_id uid upd now2 p
        hfind hown,
      by rw [hst, hs, Option.getD_some]⟩

theorem status_lifecycle_witness :
    (∃ t, (create_travel_plan [chiangMai] [] noBudgetRequest "alice" "p7"
        250).2 = [] ++ [t] ∧ t.status = "planned") ∧
    (∃ q, (update_travel_plan [alicePlan] [chiangMai] "p1"
          { status := some "ongoing" } "alice" 300).2 =
        [alicePlan].map (fun r => if r.id == "p1" then q else r) ∧
      q.status = "ongoing") :=
  status_lifecycle [chiangMai] [] noBudgetRequest "alice" "p7" 250
    chiangMai [alicePlan] "p1" alicePlan { status := some "ongoing" }
    "ongoing" 300 (by decide) (by decide) rfl rfl

/-- C5: for any budget b ≥ 0 and province rate r ∈ [0,100], the computed
estimate is exactly b * r / 100 (the tax-benefits endpoint computes it
for every budget, in particular 0 when the rate is 0), and a creation
request with no budget stores the plan with the estimate field unset. -/
theorem estimate_exact (provinces : List DBProvince) (province_id : Int)
    (province : DBProvince) (budget : Rat) (plans : List DBTravelPlan)
    (req : CreateTravelPlan) (uid newId : String) (now : Int)
    (hp : sessionGetProvince provinces province_id = some province)
    (hb : 0 ≤ budget) (hr0 : 0 ≤ province.tax_reduction_percentage)
    (hr1 : province.tax_reduction_percentage ≤ 100)
    (hreq : req.province_id = province_id) (hbud : req.budget = none) :
    (∃ res, get_province_tax_benefits provinces province_id budget =
        .ok res ∧
      res.estimated_tax_reduction =
        budget * province.tax_reduction_percentage / 100) ∧
    (province.tax_reduction_percentage = 0 →
      ∃ res, get_province_tax_benefits provinces province_id budget =
          .ok res ∧
        res.estimated_tax_reduction = 0) ∧
    (∃ t, (create_travel_plan provinces plans req uid newId now).2 =
        plans ++ [t] ∧ t.estimated_tax_reduction = none ∧
      t.budget = none) := by
  refine ⟨?_, ?_, ?_⟩
  · unfold get_province_tax_benefits
    rw [hp]
    exact ⟨_, rfl, by dsimp only; rw [mul_div_assoc]⟩
  · intro h0
    unfold get_province_tax_benefits
    rw [hp]
    exact ⟨_, rfl, by dsimp only; rw [h0]; simp⟩
  · unfold create_travel_plan
    rw [hreq, hp]
    dsimp only
    rw [hbud]
    exact ⟨_, rfl, rfl, rfl⟩

theorem estimate_exact_witness :
    (∃ res, get_province_tax_benefits [chiangMai] 1 10000 = .ok res ∧
      res.estimated_tax_reduction =
        10000 * chiangMai.tax_reduction_percentage / 100) ∧
    (chiangMai.tax_reduction_percentage = 0 →
      ∃ res, get_province_tax_benefits [chiangMai] 1 10000 = .ok res ∧
        res.estimated_tax_reduction = 0) ∧
    (∃ t, (create_travel_plan [chiangMai] [] noBudgetRequest "alice" "p7"
        250).2 = [] ++ [t] ∧ t.estimated_tax_reduction = none ∧
      t.budget = none) :=
  estimate_exact [chiangMai] 1 chiangMai 10000 [] noBudgetRequest "alice"
    "p7" 250 (by decide) (by norm_num) (by norm_num [chiangMai])
    (by norm_num [chiangMai]) rfl rfl

/-- C10: creating a plan with an existing province and budget exactly 0
persists the plan with the estimate field unset (the budget is tested
for truthiness, and 0 is falsy), while the creation response's
tax-benefits summary still reports an estimated reduction of 0. -/
theorem create_zero_budget_unset (provinces : List DBProvince)
    (plans : List DBTravelPlan) (province : DBProvince)
    (req : CreateTravelPlan) (uid newId : String) (now : Int)
    (hp : sessionGetProvince provinces req.province_id = some province)
    (hb : req.budget = some 0) :
    ∃ t resp, create_travel_plan provinces plans req uid newId now =
        (.ok resp, plans ++ [t]) ∧
      t.budget = some 0 ∧ t.estimated_tax_reduction = none ∧
      resp.tax_benefits.estimated_reduction = 0 := by
  unfold create_travel_plan
  rw [hp]
  dsimp only
  rw [hb]
  simp only [ne_eq, not_true_eq_false, ite_false]
  exact ⟨_, _, rfl, rfl, rfl, rfl⟩

theorem create_zero_budget_unset_witness :
    ∃ t resp, create_travel_plan [chiangMai] [] zeroBudgetRequest "alice"
        "p8" 250 = (.ok resp, [] ++ [t]) ∧
      t.budget = some 0 ∧ t.estimated_tax_reduction = none ∧
      resp.tax_benefits.estimated_reduction = 0 :=
  create_zero_budget_unset [chiangMai] [] chiangMai zeroBudgetRequest
    "alice" "p8" 250 (by decide) rfl

end ThaiTravelShare
